import Mathlib

/-!
# Verification of the solarforecastarbiter aggregation engine

The repository's core is the aggregate time-series computation engine:
`compute_aggregate`, `_observation_valid` and `_make_aggregate_index` of
`solarforecastarbiter/utils.py`.  That file itself is not present in the
source tree given here; only its test suite
(`solarforecastarbiter/tests/test_utils.py`) is.  The definitions below are
therefore modelled from the specification (spec.md §3, §4.1–§4.3, §8),
refined by the repository's own tests wherever the tests pin down behavior
that the spec prose states differently.  The tests force three refinements:

* `effective_until` is an *inclusive* upper bound
  (`test__observation_valid_many` expects `True` at `t = effective_until`);
* an observation that is valid at an output timestamp but has no raw sample
  in the corresponding bucket makes the aggregate value at that timestamp
  missing even when other observations have data
  (`test_compute_aggregate_missing_data`, `test_compute_aggregate_no_overlap`);
* a record with `observation_deleted_at` set raises `ValueError` whenever
  its `effective_until` is absent or falls at/after the first target
  timestamp, even when the observation was properly retired
  (`test_compute_aggregate_deleted_not_removed_yet`).

Timestamps are modelled as integer minutes relative to a per-scenario epoch
chosen at a UTC midnight; the `timezone` argument is modelled as a UTC
offset in minutes (0 for `'UTC'`).  Interval lengths are in minutes
(`'1h'` = 60, `'30min'` = 30, ...).  Numeric values are rationals; a missing
value (NaN) is `Option.none`.  Python exceptions are modelled by `Except`
with an error code naming the Python exception class.
-/

namespace SFA

/-- An observation identifier (a UUID string in the repository). -/
abbrev ObsId := String

/-- A timestamp, in minutes relative to a fixed epoch (a UTC midnight). -/
abbrev Time := Int

/-- An exact numeric value.  The engine's float arithmetic is modelled by
exact fractions: `num / den` with `den` kept positive and reduced by every
operation, so that structural equality is equality of values. -/
structure Q where
  num : Int
  den : Int
deriving DecidableEq, Repr

/-- Build the canonical fraction `n / d` (positive reduced denominator). -/
def Q.norm (n d : Int) : Q :=
  if d = 0 then { num := 0, den := 1 }
  else
    let dp := if d < 0 then -d else d
    let np := if d < 0 then -n else n
    let g : Int := Int.ofNat (Int.gcd np dp)
    if g = 0 then { num := 0, den := 1 } else { num := np / g, den := dp / g }

/-- The integer `n` as a fraction. -/
def Q.ofInt (n : Int) : Q := { num := n, den := 1 }

/-- Addition of fractions. -/
def Q.add (a b : Q) : Q := Q.norm (a.num * b.den + b.num * a.den) (a.den * b.den)

/-- Division of fractions. -/
def Q.div (a b : Q) : Q := Q.norm (a.num * b.den) (a.den * b.num)

/-- Comparison `a ≤ b` (cross multiplication; denominators are positive). -/
def Q.leB (a b : Q) : Bool := decide (a.num * b.den ≤ b.num * a.den)

/-- Comparison `a < b` (cross multiplication; denominators are positive). -/
def Q.ltB (a b : Q) : Bool := decide (a.num * b.den < b.num * a.den)

/-- One row of an observation DataFrame: a timestamp, the `value` entry
(`none` models NaN / missing) and the `quality_flag` entry (a bitmask). -/
structure Sample where
  t : Time
  value : Option Q
  qf : Nat
deriving DecidableEq, Repr

/-- Modelled from the spec: one entry of the `observation_series_map`
(a pandas DataFrame).  `tzaware` records whether the DataFrame index is
timezone-aware; `hasValueCol`/`hasQFCol` record whether the required
`value`/`quality_flag` columns are present (spec §4.3 demands `KeyError`
when they are not, cf. `test_compute_aggregate_bad_cols`). -/
structure ObsFrame where
  samples : List Sample
  tzaware : Bool
  hasValueCol : Bool
  hasQFCol : Bool
deriving DecidableEq, Repr

/-- An `AggregateObservationRecord` ("aggobs", spec §3): one lifecycle
window of one observation's participation in the aggregate. -/
structure AggObs where
  observation_id : ObsId
  effective_from : Time
  effective_until : Option Time
  observation_deleted_at : Option Time
deriving DecidableEq, Repr

/-- The Python exception class raised by the engine. -/
inductive AggError where
  | keyError
  | valueError
  | typeError
deriving DecidableEq, Repr

/-- The `AggregateResult` DataFrame (spec §3): `value` and `quality_flag`
columns aligned with the output `index`. -/
structure AggResult where
  index : List Time
  value : List (Option Q)
  quality_flag : List Nat
deriving DecidableEq, Repr

/-- Equality of `Except` results is decidable (needed to settle concrete
scenarios by evaluation). -/
def exceptDecEq {ε α : Type} [DecidableEq ε] [DecidableEq α] :
    (a b : Except ε α) → Decidable (a = b)
  | .error e, .error f =>
    if h : e = f then isTrue (by rw [h]) else isFalse (fun hh => h (Except.error.inj hh))
  | .error _, .ok _ => isFalse (fun hh => Except.noConfusion hh)
  | .ok _, .error _ => isFalse (fun hh => Except.noConfusion hh)
  | .ok x, .ok y =>
    if h : x = y then isTrue (by rw [h]) else isFalse (fun hh => h (Except.ok.inj hh))

instance {ε α : Type} [DecidableEq ε] [DecidableEq α] : DecidableEq (Except ε α) :=
  exceptDecEq

/-- Largest multiple of `m` (anchored at 0) that is `≤ x`. -/
def floorTo (m : Nat) (x : Int) : Int := x - x % (m : Int)

/-- Smallest multiple of `m` (anchored at 0) that is `≥ x`. -/
def ceilTo (m : Nat) (x : Int) : Int := floorTo m (x + (m : Int) - 1)

/-- All sample timestamps appearing in the observation series map. -/
def allTimes (data : List (ObsId × ObsFrame)) : List Time :=
  data.foldr (fun p acc => p.2.samples.map Sample.t ++ acc) []

/-- Minimum of a list of timestamps (`none` when the list is empty). -/
def minTime? (ts : List Time) : Option Time :=
  ts.foldl (fun acc t =>
    match acc with
    | none => some t
    | some a => some (if t < a then t else a)) none

/-- Maximum of a list of timestamps (`none` when the list is empty). -/
def maxTime? (ts : List Time) : Option Time :=
  ts.foldl (fun acc t =>
    match acc with
    | none => some t
    | some a => some (if a < t then t else a)) none

/-- The regular grid from `a` to `b` (inclusive) in steps of `m` minutes. -/
def gridRange (a b : Int) (m : Nat) : List Time :=
  (List.range (((b - a) / (m : Int)).toNat + 1)).map (fun i => a + (m : Int) * (i : Int))

/-- Modelled from the spec: `_make_aggregate_index` of
`solarforecastarbiter/utils.py` (absent from the source tree), spec §4.2.
Computes the envelope of all input series (first bullet of §4.2; comparing
naive with timezone-aware timestamps raises `TypeError`), validates
`interval_label` (must be `"beginning"` or `"ending"`, otherwise
`ValueError`) and `interval_length` (must divide a calendar day evenly,
otherwise `ValueError`), localizes to the target timezone (`TypeError` if
the inputs are naive), and snaps the envelope to the interval grid anchored
at absolute calendar boundaries in the target timezone: `"ending"` labels
are the smallest grid points at/after each envelope end, `"beginning"`
labels the largest grid points at/before them (fixtures
`test__make_aggregate_index*`). -/
def _make_aggregate_index (data : List (ObsId × ObsFrame)) (m : Nat)
    (label : String) (tz : Int) : Except AggError (List Time) :=
  let hasNaive := data.any (fun p => !p.2.tzaware)
  let hasAware := data.any (fun p => p.2.tzaware)
  if hasNaive && hasAware then .error .typeError
  else if label = "beginning" ∨ label = "ending" then
    if 1440 % m ≠ 0 then .error .valueError
    else if hasNaive then .error .typeError
    else
      match minTime? (allTimes data), maxTime? (allTimes data) with
      | some s, some e =>
        if label = "ending" then
          .ok (gridRange (ceilTo m (s + tz) - tz) (ceilTo m (e + tz) - tz) m)
        else
          .ok (gridRange (floorTo m (s + tz) - tz) (floorTo m (e + tz) - tz) m)
      | _, _ => .error .valueError
  else .error .valueError

/-- The records of `aggobs_records` matching one observation id (spec §4.1,
first bullet). -/
def matchedRecords (oid : ObsId) (records : List AggObs) : List AggObs :=
  records.filter (fun r => r.observation_id = oid)

/-- Window membership of one lifecycle record: `effective_from ≤ t` and
(`effective_until` absent or `t ≤ effective_until`).  The upper bound is
inclusive, as pinned by `test__observation_valid_many` (mask `True` at
`t = effective_until`). -/
def validWindow (r : AggObs) (t : Time) : Bool :=
  decide (r.effective_from ≤ t) &&
    (match r.effective_until with
     | none => true
     | some u => decide (t ≤ u))

/-- `t` is before the record's deletion timestamp (vacuously true when the
record carries none). -/
def notDeletedAt (r : AggObs) (t : Time) : Bool :=
  match r.observation_deleted_at with
  | none => true
  | some d => decide (t < d)

/-- The validity mask value at one timestamp (spec §4.1): the union
(logical OR) of window membership over all matched records, intersected
with "not at/after deletion" for every deletion timestamp present on a
matched record. -/
def validAt (oid : ObsId) (records : List AggObs) (t : Time) : Bool :=
  (matchedRecords oid records).any (fun r => validWindow r t) &&
    (matchedRecords oid records).all (fun r => notDeletedAt r t)

/-- Some matched record retires the observation at/before the deletion
timestamp `d` (`effective_until ≤ observation_deleted_at`, spec §3
invariant). -/
def retiredBefore (matched : List AggObs) (d : Time) : Bool :=
  matched.any (fun r =>
    match r.effective_until with
    | some u => decide (u ≤ d)
    | none => false)

/-- The deletion/retirement check of the Validity Resolver.  A matched
record with `observation_deleted_at` set raises `ValueError` when its
`effective_until` is absent or falls at/after the first target timestamp —
even when the observation was properly retired
(`test_compute_aggregate_deleted_not_removed_yet`) — or when no matched
record retires the observation at/before the deletion timestamp
(spec §4.1: deleted but never properly retired). -/
def deletedRaise (first : Time) (oid : ObsId) (records : List AggObs) : Bool :=
  (matchedRecords oid records).any (fun r =>
    match r.observation_deleted_at with
    | none => false
    | some d =>
      (match r.effective_until with
       | none => true
       | some u => decide (first ≤ u)) ||
        !(retiredBefore (matchedRecords oid records) d))

/-- Modelled from the spec: `_observation_valid` of
`solarforecastarbiter/utils.py` (absent from the source tree), spec §4.1:
the Validity Resolver.  Runs the deletion/retirement check and otherwise
returns the validity mask aligned to the target index. -/
def _observation_valid (index : List Time) (oid : ObsId) (records : List AggObs) :
    Except AggError (List Bool) :=
  if deletedRaise (index.head?.getD 0) oid records then .error .valueError
  else .ok (index.map (fun t => validAt oid records t))

/-- A sample lies in the bucket labelled `t`: for `"ending"` labels the
bucket is `(t - m, t]`, for `"beginning"` labels it is `[t, t + m)`
(spec §4.2 snapping semantics). -/
def inBucket (label : String) (m : Nat) (t : Time) (s : Sample) : Bool :=
  if label = "ending" then decide (t - (m : Int) < s.t) && decide (s.t ≤ t)
  else decide (t ≤ s.t) && decide (s.t < t + (m : Int))

/-- The raw samples of one observation falling in the bucket labelled `t`. -/
def bucketSamples (label : String) (m : Nat) (f : ObsFrame) (t : Time) : List Sample :=
  f.samples.filter (inBucket label m t)

/-- Sum of a list of fractions. -/
def qsum (l : List Q) : Q := l.foldl Q.add (Q.ofInt 0)

/-- The per-observation resampled value at bucket `t`: the mean of the
non-missing sample values in the bucket, `none` when there are none
(resampling a series to the output grid takes the within-bucket mean). -/
def bucketValue (label : String) (m : Nat) (f : ObsFrame) (t : Time) : Option Q :=
  let vs := (bucketSamples label m f t).filterMap Sample.value
  if vs.isEmpty then none else some (Q.div (qsum vs) (Q.ofInt (Int.ofNat vs.length)))

/-- Bitwise OR of a list of flags. -/
def listOr (l : List Nat) : Nat := l.foldl (· ||| ·) 0

/-- The per-observation resampled quality flag at bucket `t`: the bitwise
OR of the flags of all samples in the bucket (0 when there are none). -/
def bucketQF (label : String) (m : Nat) (f : ObsFrame) (t : Time) : Nat :=
  listOr ((bucketSamples label m f t).map Sample.qf)

/-- The observations that are validity-eligible at `t`. -/
def eligibleAt (data : List (ObsId × ObsFrame)) (records : List AggObs) (t : Time) :
    List (ObsId × ObsFrame) :=
  data.filter (fun p => validAt p.1 records t)

/-- The observations that contribute a value at `t`: validity-eligible and
holding at least one non-missing sample in the bucket at `t`. -/
def contributorsAt (data : List (ObsId × ObsFrame)) (records : List AggObs)
    (label : String) (m : Nat) (t : Time) : List (ObsId × ObsFrame) :=
  data.filter (fun p => validAt p.1 records t && (bucketValue label m p.2 t).isSome)

/-- Insert into a sorted list of fractions, keeping it sorted. -/
def insertSorted (x : Q) : List Q → List Q
  | [] => [x]
  | y :: ys => if Q.leB x y then x :: y :: ys else y :: insertSorted x ys

/-- Insertion sort of a list of fractions. -/
def qsort (l : List Q) : List Q := l.foldr insertSorted []

/-- Median of a list of fractions (mean of the two middle elements for an
even length, matching pandas `median`). -/
def qmedian (l : List Q) : Q :=
  let s := qsort l
  if s.length % 2 = 1 then s.getD (s.length / 2) (Q.ofInt 0)
  else Q.div (Q.add (s.getD (s.length / 2 - 1) (Q.ofInt 0))
                    (s.getD (s.length / 2) (Q.ofInt 0))) (Q.ofInt 2)

/-- Maximum of a list of fractions (0 for the empty list, unused there). -/
def qmax (l : List Q) : Q :=
  match l with
  | [] => Q.ofInt 0
  | x :: xs => xs.foldl (fun a b => if Q.ltB a b then b else a) x

/-- Minimum of a list of fractions (0 for the empty list, unused there). -/
def qmin (l : List Q) : Q :=
  match l with
  | [] => Q.ofInt 0
  | x :: xs => xs.foldl (fun a b => if Q.ltB b a then b else a) x

/-- The named aggregation function (spec §6: sum, mean, median, max, min,
dispatched by name). -/
def applyAgg (fn : String) (l : List Q) : Q :=
  if fn = "sum" then qsum l
  else if fn = "mean" then Q.div (qsum l) (Q.ofInt (Int.ofNat l.length))
  else if fn = "median" then qmedian l
  else if fn = "max" then qmax l
  else if fn = "min" then qmin l
  else Q.ofInt 0

/-- The aggregate value at one output timestamp `t`.  If any
validity-eligible observation has no non-missing sample in the bucket at
`t`, the value is missing (`test_compute_aggregate_missing_data`,
`test_compute_aggregate_no_overlap`); otherwise the named aggregation
function is applied to the eligible observations' resampled values, and the
value is missing when there are none (spec §4.3). -/
def aggValueAt (data : List (ObsId × ObsFrame)) (records : List AggObs)
    (label : String) (m : Nat) (fn : String) (t : Time) : Option Q :=
  let elig := eligibleAt data records t
  if elig.any (fun p => (bucketValue label m p.2 t).isNone) then none
  else
    let vs := elig.filterMap (fun p => bucketValue label m p.2 t)
    if vs.isEmpty then none else some (applyAgg fn vs)

/-- The aggregate quality flag at one output timestamp `t`: the bitwise OR
of the resampled flags of the observations that contribute a value at `t`
(0 when none does), spec §4.3. -/
def aggQFAt (data : List (ObsId × ObsFrame)) (records : List AggObs)
    (label : String) (m : Nat) (t : Time) : Nat :=
  listOr ((contributorsAt data records label m t).map (fun p => bucketQF label m p.2 t))

/-- Some non-deleted record references an observation id absent from the
observation series map (spec §4.3: `KeyError`). -/
def expectedMissing (data : List (ObsId × ObsFrame)) (records : List AggObs) : Bool :=
  (records.filter (fun r => r.observation_deleted_at = none)).any
    (fun r => !(data.any (fun p => p.1 = r.observation_id)))

/-- Some contributing series lacks the required `value`/`quality_flag`
columns (spec §4.3: `KeyError`). -/
def badColumns (data : List (ObsId × ObsFrame)) : Bool :=
  data.any (fun p => !p.2.hasValueCol || !p.2.hasQFCol)

/-- Modelled from the spec: `compute_aggregate` of
`solarforecastarbiter/utils.py` (absent from the source tree), spec §4.3:
the Aggregate Engine.  Raises `KeyError` for an empty series map, for a
referenced current contributor absent from the map, or for a series lacking
the required columns; builds the output grid via `_make_aggregate_index`
(propagating its errors); runs the Validity Resolver's deletion/retirement
check for every observation id referenced by the records (propagating
`ValueError`); and otherwise assembles the aggregate value and quality-flag
columns on the grid. -/
def compute_aggregate (data : List (ObsId × ObsFrame)) (m : Nat) (label : String)
    (tz : Int) (fn : String) (records : List AggObs) : Except AggError AggResult :=
  if data.isEmpty then .error .keyError
  else if expectedMissing data records then .error .keyError
  else if badColumns data then .error .keyError
  else
    match _make_aggregate_index data m label tz with
    | .error e => .error e
    | .ok idx =>
      if records.any (fun r => deletedRaise (idx.head?.getD 0) r.observation_id records)
      then .error .valueError
      else .ok { index := idx
               , value := idx.map (fun t => aggValueAt data records label m fn t)
               , quality_flag := idx.map (fun t => aggQFAt data records label m t) }

/-! ## Concrete fixtures

Epochs: scenario-A fixtures use 2019-10-04T00:00Z as minute 0, the
no-overlap fixtures use 2019-10-02T00:00Z as minute 0. -/

/-- The target index of the scenario-A fixtures: 10 hourly timestamps
2019-10-04T00:00Z .. 09:00Z. -/
def hourlyTimes : List Time := [0, 60, 120, 180, 240, 300, 360, 420, 480, 540]

/-- A series of 10 hourly samples, value 1, quality flag 0
(`test_compute_aggregate`). -/
def onesFrame : ObsFrame :=
  { samples := hourlyTimes.map (fun t => { t := t, value := some (Q.ofInt 1), qf := 0 })
  , tzaware := true, hasValueCol := true, hasQFCol := true }

/-- The scenario-A series map: three observations `"a"`, `"b"`, `"c"`. -/
def c1data : List (ObsId × ObsFrame) := [("a", onesFrame), ("b", onesFrame), ("c", onesFrame)]

/-- The scenario-A lifecycle records (`aggobs[:-2]` of the test fixture):
`"a"` active from 2019-10-01T11:00Z (minute -3660); `"b"` from
2019-10-04T05:01Z (minute 301); `"c"` in three windows — until 04:00Z
(minute 240), 07:00Z–08:00Z (420–480), and from 08:01Z (481). -/
def c1records : List AggObs :=
  [ { observation_id := "a", effective_from := -3660
    , effective_until := none, observation_deleted_at := none }
  , { observation_id := "b", effective_from := 301
    , effective_until := none, observation_deleted_at := none }
  , { observation_id := "c", effective_from := -3660
    , effective_until := some 240, observation_deleted_at := none }
  , { observation_id := "c", effective_from := 420
    , effective_until := some 480, observation_deleted_at := none }
  , { observation_id := "c", effective_from := 481
    , effective_until := none, observation_deleted_at := none } ]

/-- First series of the scenario-D index fixture: 5 samples at 7-minute
spacing from 2019-10-04T07:00Z (minute 420). -/
def c6frame0 : ObsFrame :=
  { samples := [420, 427, 434, 441, 448].map (fun t => { t := t, value := some (Q.ofInt 0), qf := 0 })
  , tzaware := true, hasValueCol := true, hasQFCol := true }

/-- Second series of the scenario-D index fixture: 4 samples at 10-minute
spacing from 2019-10-04T00:15-07:00 = 07:15Z (minute 435). -/
def c6frame1 : ObsFrame :=
  { samples := [435, 445, 455, 465].map (fun t => { t := t, value := some (Q.ofInt 0), qf := 0 })
  , tzaware := true, hasValueCol := true, hasQFCol := true }

/-- The scenario-D series map (7-minute vs 10-minute grids). -/
def c6data : List (ObsId × ObsFrame) := [("x", c6frame0), ("y", c6frame1)]


/-- First series of the no-overlap fixture (`test_compute_aggregate_no_overlap`):
samples at 2019-10-02T01:00Z, 01:30Z, 02:30Z (minutes 60, 90, 150), values
1, 2, 3, flags 2, 10, 338. -/
def c2frameX : ObsFrame :=
  { samples := [ { t := 60, value := some (Q.ofInt 1), qf := 2 }
               , { t := 90, value := some (Q.ofInt 2), qf := 10 }
               , { t := 150, value := some (Q.ofInt 3), qf := 338 } ]
  , tzaware := true, hasValueCol := true, hasQFCol := true }

/-- Second series of the no-overlap fixture: samples at 02:00Z, 02:30Z,
03:00Z (minutes 120, 150, 180), values 3, 2, 1, flags 9, 880, 10. -/
def c2frameY : ObsFrame :=
  { samples := [ { t := 120, value := some (Q.ofInt 3), qf := 9 }
               , { t := 150, value := some (Q.ofInt 2), qf := 880 }
               , { t := 180, value := some (Q.ofInt 1), qf := 10 } ]
  , tzaware := true, hasValueCol := true, hasQFCol := true }

/-- The no-overlap series map. -/
def c2data : List (ObsId × ObsFrame) := [("x", c2frameX), ("y", c2frameY)]

/-- The no-overlap lifecycle records: `"x"` active from 2019-10-01T11:00Z
(minute -780), `"y"` from 2019-10-02T02:00Z (minute 120). -/
def c2records : List AggObs :=
  [ { observation_id := "x", effective_from := -780
    , effective_until := none, observation_deleted_at := none }
  , { observation_id := "y", effective_from := 120
    , effective_until := none, observation_deleted_at := none } ]

/-- The aggregate of the no-overlap fixture at `'30min'`/`'ending'`/
`'median'`: the expected frame of `test_compute_aggregate_no_overlap`. -/
def c2result : AggResult :=
  { index := [60, 90, 120, 150, 180]
  , value := [ some (Q.ofInt 1), some (Q.ofInt 2), none
             , some { num := 5, den := 2 }, none ]
  , quality_flag := [2, 10, 9, 882, 10] }

/-- The window-membership formula exactly as claim C3 words it, with a
*strict* upper bound `t < effective_until`.  Stated only to refute that
claim; the engine itself uses the inclusive `validWindow`. -/
def strictWindow (r : AggObs) (t : Time) : Bool :=
  decide (r.effective_from ≤ t) &&
    (match r.effective_until with
     | none => true
     | some u => decide (t < u))

/-- A lifecycle record that was deleted (2019-10-04T01:40 = minute 100)
after being properly retired (`effective_until` = minute -10, before the
target index), used to refute claim C5. -/
def c5recA : AggObs :=
  { observation_id := "x", effective_from := -100
  , effective_until := some (-10), observation_deleted_at := some 100 }

/-- A second, still-active record for the same observation (no
`effective_until`, no deletion). -/
def c5recB : AggObs :=
  { observation_id := "x", effective_from := -100
  , effective_until := none, observation_deleted_at := none }

/-- A timezone-aware single-sample series. -/
def awareFrame1 : ObsFrame :=
  { samples := [ { t := 0, value := some (Q.ofInt 0), qf := 0 } ]
  , tzaware := true, hasValueCol := true, hasQFCol := true }

/-- A timezone-naive single-sample series. -/
def naiveFrame1 : ObsFrame :=
  { samples := [ { t := 0, value := some (Q.ofInt 0), qf := 0 } ]
  , tzaware := false, hasValueCol := true, hasQFCol := true }

/-- A series map mixing a timezone-aware and a timezone-naive series. -/
def c7data : List (ObsId × ObsFrame) := [("a", awareFrame1), ("b", naiveFrame1)]

/-- A record deleted at minute 100 and never retired (`effective_until`
absent). -/
def c4rec : AggObs :=
  { observation_id := "a", effective_from := 0
  , effective_until := none, observation_deleted_at := some 100 }

/-! ## Theorems -/

set_option maxRecDepth 100000 in
/-- **C1.** `compute_aggregate` on scenario A — three observations of 10
hourly samples (value 1, flag 0) on 2019-10-04T00:00Z..09:00Z, `'1h'`,
`'ending'`, `'UTC'`, `'sum'`, with `"a"` active throughout, `"b"` effective
from 05:01Z and `"c"` in three windows (until 04:00Z, 07:00Z–08:00Z, from
08:01Z) — returns the value column [2,2,2,2,2,1,2,3,3,3] with quality flag
0 at every one of the 10 timestamps. -/
theorem compute_aggregate_scenarioA :
    compute_aggregate c1data 60 "ending" 0 "sum" c1records =
      .ok { index := hourlyTimes
          , value := [some (Q.ofInt 2), some (Q.ofInt 2), some (Q.ofInt 2),
                      some (Q.ofInt 2), some (Q.ofInt 2), some (Q.ofInt 1),
                      some (Q.ofInt 2), some (Q.ofInt 3), some (Q.ofInt 3),
                      some (Q.ofInt 3)]
          , quality_flag := [0, 0, 0, 0, 0, 0, 0, 0, 0, 0] } := by
  decide

/-- **C6.** `_make_aggregate_index` on the scenario-D fixture (5 samples at
7-minute spacing from 07:00Z and 4 samples at 10-minute spacing from
07:15Z) with `'20min'`/`'ending'`/`'UTC'` yields exactly the ascending,
regular, gap-free index 07:00Z, 07:20Z, 07:40Z, 08:00Z (minutes 420, 440,
460, 480), anchored at absolute calendar boundaries. -/
theorem make_aggregate_index_scenarioD :
    _make_aggregate_index c6data 20 "ending" 0 = .ok [420, 440, 460, 480] := by
  decide

set_option maxRecDepth 100000 in
/-- **C2, counterexample.**  On the no-overlap fixture
(`test_compute_aggregate_no_overlap`) the aggregate value at
2019-10-02T02:00Z (minute 120, position 2) is missing although the
validity-eligible observation `"y"` has a non-missing sample in that bucket
(value 3): the claim that the output value is missing *only when zero
eligible observations have data* — and that the remaining eligible,
data-present observations are still aggregated — is false.  The
validity-eligible observation `"x"` has no sample in the bucket, and that
alone makes the output missing. -/
theorem compute_aggregate_missing_poisons_cx :
    compute_aggregate c2data 30 "ending" 0 "median" c2records = .ok c2result ∧
    c2result.value.getD 2 none = none ∧
    validAt "y" c2records 120 = true ∧
    bucketValue "ending" 30 c2frameY 120 = some (Q.ofInt 3) := by
  refine ⟨by decide, by decide, by decide, by decide⟩

set_option maxRecDepth 100000 in
/-- **C3, counterexample.**  On the fixture of
`test__observation_valid_many`, the validity mask of observation `"c"` is
`true` at 2019-10-04T04:00Z (minute 240, position 4) although no matched
record satisfies the claim's strict-upper-bound window formula
`effective_from ≤ t ∧ (effective_until absent ∨ t < effective_until)`
there (the matching record has `effective_until` = 240 exactly): the
claimed "upper bound is exclusive" reading is false — the bound is
inclusive. -/
theorem observation_valid_exclusive_bound_cx :
    _observation_valid hourlyTimes "c" c1records =
      .ok [true, true, true, true, true, false, false, true, true, true] ∧
    (matchedRecords "c" c1records).any (fun r => strictWindow r 240) = false := by
  refine ⟨by decide, by decide⟩

/-- **C5, counterexample.**  Observation `"x"` has a record with
`observation_deleted_at` set (`c5recA`) and a record whose
`effective_until` is absent (`c5recB`), yet `_observation_valid` on the
target index `[0]` raises nothing and returns a mask containing `true`:
the claim — `ValueError` whenever *any* of the observation's records has
`effective_until` absent or inside the index, and an all-`false` mask
("never a True entry") otherwise — is false.  Only records that themselves
carry `observation_deleted_at` participate in the deletion check. -/
theorem observation_valid_deleted_mixed_cx :
    _observation_valid [0] "x" [c5recA, c5recB] = .ok [true] ∧
    (∃ r ∈ [c5recA, c5recB], r.observation_deleted_at.isSome = true) ∧
    (∃ r ∈ [c5recA, c5recB], r.effective_until = none) := by
  refine ⟨by decide, by decide, by decide⟩

/-- **C7, counterexample.**  With a series map mixing one timezone-aware
and one timezone-naive series, `_make_aggregate_index` with the
non-divisor interval length `'33min'` raises `TypeError` (from the
envelope comparison), not `ValueError`: the claim that `ValueError` is
raised "regardless of the other inputs" is false. -/
theorem make_aggregate_index_33min_naive_cx :
    _make_aggregate_index c7data 33 "ending" 0 = .error .typeError ∧
    _make_aggregate_index c7data 33 "ending" 0 ≠ .error .valueError := by
  refine ⟨by decide, by decide⟩

/-! ## Supporting lemmas -/

/-- `getD` through `map`, at an in-range position. -/
theorem getD_map_lt {α β : Type} (l : List α) (f : α → β) (i : Nat)
    (hi : i < l.length) (db : β) (da : α) :
    (l.map f).getD i db = f (l.getD i da) := by
  simp [List.getD_eq_getElem?_getD, List.getElem?_map, List.getElem?_eq_getElem hi]

/-- Unfolding of `validWindow` into its arithmetic meaning. -/
theorem validWindow_iff (r : AggObs) (t : Time) :
    validWindow r t = true ↔
      r.effective_from ≤ t ∧
        (r.effective_until = none ∨ ∃ u, r.effective_until = some u ∧ t ≤ u) := by
  unfold validWindow
  cases h : r.effective_until <;> simp [h]

/-- Unfolding of `notDeletedAt` into its arithmetic meaning. -/
theorem notDeletedAt_iff (r : AggObs) (t : Time) :
    notDeletedAt r t = true ↔ ∀ d, r.observation_deleted_at = some d → t < d := by
  unfold notDeletedAt
  cases h : r.observation_deleted_at <;> simp [h]

/-- Unfolding of the validity-mask value into its record-level meaning. -/
theorem validAt_iff (oid : ObsId) (records : List AggObs) (t : Time) :
    validAt oid records t = true ↔
      ((∃ r ∈ records, r.observation_id = oid ∧ r.effective_from ≤ t ∧
          (r.effective_until = none ∨ ∃ u, r.effective_until = some u ∧ t ≤ u)) ∧
        (∀ r ∈ records, r.observation_id = oid →
          ∀ d, r.observation_deleted_at = some d → t < d)) := by
  unfold validAt matchedRecords
  simp only [Bool.and_eq_true, List.any_eq_true, List.all_eq_true, List.mem_filter,
    decide_eq_true_eq, validWindow_iff, notDeletedAt_iff]
  constructor
  · rintro ⟨⟨r, ⟨hr, hid⟩, hw⟩, hall⟩
    exact ⟨⟨r, hr, hid, hw⟩, fun r2 hr2 hid2 => hall r2 ⟨hr2, hid2⟩⟩
  · rintro ⟨⟨r, hr, hid, hw⟩, hall⟩
    exact ⟨⟨r, ⟨hr, hid⟩, hw⟩, fun r2 hr2 => hall r2 hr2.1 hr2.2⟩

/-- Inversion of a successful `compute_aggregate` call: the index comes
from `_make_aggregate_index` and the two columns are computed pointwise on
it. -/
theorem compute_ok_inv (data : List (ObsId × ObsFrame)) (m : Nat) (label : String)
    (tz : Int) (fn : String) (records : List AggObs) (r : AggResult)
    (h : compute_aggregate data m label tz fn records = .ok r) :
    _make_aggregate_index data m label tz = .ok r.index ∧
    r.value = r.index.map (fun t => aggValueAt data records label m fn t) ∧
    r.quality_flag = r.index.map (fun t => aggQFAt data records label m t) := by
  unfold compute_aggregate at h
  split at h
  · exact absurd h (by simp)
  · split at h
    · exact absurd h (by simp)
    · split at h
      · exact absurd h (by simp)
      · split at h
        · exact absurd h (by simp)
        · rename_i idx hidx
          split at h
          · exact absurd h (by simp)
          · rw [Except.ok.injEq] at h
            subst h
            exact ⟨hidx, rfl, rfl⟩

/-- **C10.**  Whenever the observation series map mixes a timezone-aware
and a timezone-naive series, `_make_aggregate_index` raises `TypeError`
instead of producing a grid, for every interval length, label and
timezone. -/
theorem make_aggregate_index_mixed_tz (data : List (ObsId × ObsFrame)) (m : Nat)
    (label : String) (tz : Int)
    (h1 : ∃ p ∈ data, p.2.tzaware = true) (h2 : ∃ q ∈ data, q.2.tzaware = false) :
    _make_aggregate_index data m label tz = .error .typeError := by
  have hn : data.any (fun p => !p.2.tzaware) = true := by
    rw [List.any_eq_true]
    obtain ⟨q, hq, hq2⟩ := h2
    exact ⟨q, hq, by simp [hq2]⟩
  have ha : data.any (fun p => p.2.tzaware) = true := by
    rw [List.any_eq_true]
    obtain ⟨p, hp, hp2⟩ := h1
    exact ⟨p, hp, hp2⟩
  unfold _make_aggregate_index
  simp [hn, ha]

/-- **C10, witness.**  The mixed fixture raises `TypeError` at
`'30min'`/`'ending'`/`'UTC'`. -/
theorem make_aggregate_index_mixed_tz_witness :
    _make_aggregate_index c7data 30 "ending" 0 = .error .typeError :=
  make_aggregate_index_mixed_tz c7data 30 "ending" 0 (by decide) (by decide)

/-- **C7, amended.**  For every non-empty observation series map whose
series are uniformly timezone-aware, `_make_aggregate_index` raises
`ValueError` when the interval length does not divide a calendar day
evenly (such as `'33min'`), for every label and timezone, and raises
`ValueError` when the interval label is `'instant'`.  (When naive and
aware series are mixed, `TypeError` takes precedence — see the
counterexample.) -/
theorem make_aggregate_index_invalid_inputs (data : List (ObsId × ObsFrame)) (m : Nat)
    (label : String) (tz : Int)
    (h1 : data ≠ []) (h2 : ∀ p ∈ data, p.2.tzaware = true) :
    (1440 % m ≠ 0 → _make_aggregate_index data m label tz = .error .valueError) ∧
    _make_aggregate_index data m "instant" tz = .error .valueError := by
  have hn : data.any (fun p => !p.2.tzaware) = false := by
    rw [List.any_eq_false]
    intro p hp
    simp [h2 p hp]
  constructor
  · intro hm
    unfold _make_aggregate_index
    by_cases hl : label = "beginning" ∨ label = "ending" <;>
      simp [hn, hl, hm]
  · unfold _make_aggregate_index
    simp [hn]

/-- **C7, amended, witness.**  On a one-series timezone-aware map,
`'33min'` and `'instant'` both raise `ValueError`. -/
theorem make_aggregate_index_invalid_inputs_witness :
    _make_aggregate_index [("a", awareFrame1)] 33 "ending" 0 = .error .valueError ∧
    _make_aggregate_index [("a", awareFrame1)] 30 "instant" 0 = .error .valueError :=
  ⟨(make_aggregate_index_invalid_inputs [("a", awareFrame1)] 33 "ending" 0
      (by decide) (by decide)).1 (by decide),
   (make_aggregate_index_invalid_inputs [("a", awareFrame1)] 30 "instant" 0
      (by decide) (by decide)).2⟩

/-- **C8.**  `compute_aggregate` raises `KeyError` when the observation
series map is empty (with non-empty lifecycle records), when some
observation id referenced by a non-deleted lifecycle record is absent from
the map, and when some series of the map lacks the required
`value`/`quality_flag` columns. -/
theorem compute_aggregate_keyError (data : List (ObsId × ObsFrame)) (m : Nat)
    (label : String) (tz : Int) (fn : String) (records : List AggObs) :
    (data = [] → records ≠ [] →
      compute_aggregate data m label tz fn records = .error .keyError) ∧
    ((∃ r ∈ records, r.observation_deleted_at = none ∧
        ∀ p ∈ data, p.1 ≠ r.observation_id) →
      compute_aggregate data m label tz fn records = .error .keyError) ∧
    ((∃ p ∈ data, p.2.hasValueCol = false ∨ p.2.hasQFCol = false) →
      compute_aggregate data m label tz fn records = .error .keyError) := by
  refine ⟨?_, ?_, ?_⟩
  · intro hd _
    subst hd
    rfl
  · intro hmiss
    by_cases hd : data.isEmpty = true
    · unfold compute_aggregate
      rw [if_pos hd]
    · have hexp : expectedMissing data records = true := by
        unfold expectedMissing
        rw [List.any_eq_true]
        obtain ⟨r, hr, hoda, habs⟩ := hmiss
        refine ⟨r, List.mem_filter.mpr ⟨hr, by simp [hoda]⟩, ?_⟩
        rw [Bool.not_eq_true']
        rw [List.any_eq_false]
        intro p hp
        simp [habs p hp]
      unfold compute_aggregate
      rw [if_neg (by simp [hd]), if_pos hexp]
  · intro hcols
    by_cases hd : data.isEmpty = true
    · unfold compute_aggregate
      rw [if_pos hd]
    · by_cases hexp : expectedMissing data records = true
      · unfold compute_aggregate
        rw [if_neg (by simp [hd]), if_pos hexp]
      · have hbad : badColumns data = true := by
          unfold badColumns
          rw [List.any_eq_true]
          obtain ⟨p, hp, hcol⟩ := hcols
          refine ⟨p, hp, ?_⟩
          rcases hcol with hv | hq
          · simp [hv]
          · simp [hq]
        unfold compute_aggregate
        rw [if_neg (by simp [hd]), if_neg (by simp [hexp]), if_pos hbad]

/-- **C8, witness.**  The three `KeyError` cases at concrete inputs: an
empty map with a non-empty record list; a record referencing id `"b"`
while the map holds only `"a"`; and a series lacking the required
columns. -/
theorem compute_aggregate_keyError_witness :
    compute_aggregate [] 60 "ending" 0 "sum"
      [{ observation_id := "a", effective_from := 0
       , effective_until := none, observation_deleted_at := none }] = .error .keyError ∧
    compute_aggregate [("a", awareFrame1)] 60 "ending" 0 "sum"
      [{ observation_id := "b", effective_from := 0
       , effective_until := none, observation_deleted_at := none }] = .error .keyError ∧
    compute_aggregate
      [("a", { samples := [], tzaware := true, hasValueCol := false, hasQFCol := true })]
      60 "ending" 0 "sum" [] = .error .keyError :=
  ⟨(compute_aggregate_keyError [] 60 "ending" 0 "sum" _).1 rfl (by decide),
   (compute_aggregate_keyError [("a", awareFrame1)] 60 "ending" 0 "sum" _).2.1 (by decide),
   (compute_aggregate_keyError
      [("a", { samples := [], tzaware := true, hasValueCol := false, hasQFCol := true })]
      60 "ending" 0 "sum" []).2.2 (by decide)⟩

/-- Folding bitwise OR absorbs any element already merged into the
accumulator. -/
theorem foldl_lor_absorb_acc (l : List Nat) (acc a : Nat) (hacc : acc ||| a = acc) :
    (l.foldl (· ||| ·) acc) ||| a = l.foldl (· ||| ·) acc := by
  induction l generalizing acc with
  | nil => exact hacc
  | cons b bs ih =>
    simp only [List.foldl_cons]
    refine ih (acc ||| b) ?_
    rw [Nat.lor_assoc, Nat.lor_comm b a, ← Nat.lor_assoc, hacc]

/-- Folding bitwise OR absorbs any element of the list being folded. -/
theorem foldl_lor_absorb_of_mem (l : List Nat) (acc a : Nat) (ha : a ∈ l) :
    (l.foldl (· ||| ·) acc) ||| a = l.foldl (· ||| ·) acc := by
  induction l generalizing acc with
  | nil => cases ha
  | cons b bs ih =>
    simp only [List.foldl_cons]
    rcases List.mem_cons.mp ha with h | h
    · subst h
      refine foldl_lor_absorb_acc bs (acc ||| a) a ?_
      rw [Nat.lor_assoc, Nat.or_self]
    · exact ih (acc ||| b) h

/-- The bitwise OR of a list absorbs each of its members: the combined
flag is a bitwise superset of every contributing flag. -/
theorem listOr_absorb (l : List Nat) (a : Nat) (ha : a ∈ l) :
    listOr l ||| a = listOr l :=
  foldl_lor_absorb_of_mem l 0 a ha

/-- The aggregate value at a timestamp is missing exactly when some
validity-eligible observation has no resampled value in the bucket there,
or no validity-eligible observation has one. -/
theorem aggValueAt_none_iff (data : List (ObsId × ObsFrame)) (records : List AggObs)
    (label : String) (m : Nat) (fn : String) (t : Time) :
    aggValueAt data records label m fn t = none ↔
      ((∃ p ∈ data, validAt p.1 records t = true ∧ bucketValue label m p.2 t = none) ∨
       (∀ p ∈ data, validAt p.1 records t = true → bucketValue label m p.2 t = none)) := by
  unfold aggValueAt eligibleAt
  by_cases hpois :
      (data.filter (fun p => validAt p.1 records t)).any
        (fun p => (bucketValue label m p.2 t).isNone) = true
  · rw [if_pos hpois]
    simp only [true_iff]
    obtain ⟨p, hp, hnone⟩ := List.any_eq_true.mp hpois
    obtain ⟨hpd, hpv⟩ := List.mem_filter.mp hp
    exact Or.inl ⟨p, hpd, by simpa using hpv, by simpa using hnone⟩
  · rw [if_neg hpois]
    have hnopois : ∀ p ∈ data, validAt p.1 records t = true →
        (bucketValue label m p.2 t) ≠ none := by
      intro p hpd hpv hnone
      exact hpois (List.any_eq_true.mpr
        ⟨p, List.mem_filter.mpr ⟨hpd, by simpa using hpv⟩, by simp [hnone]⟩)
    constructor
    · intro hval
      right
      by_cases hempty :
          ((data.filter (fun p => validAt p.1 records t)).filterMap
            (fun p => bucketValue label m p.2 t)).isEmpty = true
      · have := List.filterMap_eq_nil_iff.mp (List.isEmpty_iff.mp hempty)
        intro p hpd hpv
        exact this p (List.mem_filter.mpr ⟨hpd, by simpa using hpv⟩)
      · rw [if_neg hempty] at hval
        exact absurd hval (by simp)
    · intro h
      rcases h with ⟨p, hpd, hpv, hnone⟩ | hall
      · exact absurd hnone (hnopois p hpd hpv)
      · rw [if_pos ?_]
        rw [List.isEmpty_iff]
        rw [List.filterMap_eq_nil_iff]
        intro p hp
        obtain ⟨hpd, hpv⟩ := List.mem_filter.mp hp
        exact hall p hpd (by simpa using hpv)

/-- The Validity Resolver raises for an id with a deleted record whose
`effective_until` is absent or at/after the first target timestamp. -/
theorem deletedRaise_of_in_range (first : Time) (oid : ObsId) (records : List AggObs)
    (h : ∃ r ∈ records, r.observation_id = oid ∧ r.observation_deleted_at.isSome = true ∧
      (r.effective_until = none ∨ ∃ u, r.effective_until = some u ∧ first ≤ u)) :
    deletedRaise first oid records = true := by
  obtain ⟨r, hr, hid, hsome, hu⟩ := h
  obtain ⟨d, hd⟩ := Option.isSome_iff_exists.mp hsome
  unfold deletedRaise
  rw [List.any_eq_true]
  refine ⟨r, List.mem_filter.mpr ⟨hr, by simp [hid]⟩, ?_⟩
  rw [hd]
  simp only [Bool.or_eq_true]
  left
  rcases hu with hnone | ⟨u, hu, hle⟩
  · rw [hnone]
  · rw [hu]
    simpa using hle

/-- The Validity Resolver raises for an id with a deleted record that no
record retires at/before its deletion timestamp. -/
theorem deletedRaise_of_not_retired (first : Time) (oid : ObsId) (records : List AggObs)
    (h : ∃ r ∈ records, r.observation_id = oid ∧
      ∃ d, r.observation_deleted_at = some d ∧
        ∀ r2 ∈ records, r2.observation_id = oid →
          ∀ u, r2.effective_until = some u → d < u) :
    deletedRaise first oid records = true := by
  obtain ⟨r, hr, hid, d, hd, hall⟩ := h
  unfold deletedRaise
  rw [List.any_eq_true]
  refine ⟨r, List.mem_filter.mpr ⟨hr, by simp [hid]⟩, ?_⟩
  rw [hd]
  simp only [Bool.or_eq_true]
  right
  rw [Bool.not_eq_true']
  unfold retiredBefore
  rw [List.any_eq_false]
  intro r2 hr2
  obtain ⟨hr2d, hr2id⟩ := List.mem_filter.mp hr2
  cases hu : r2.effective_until with
  | none => simp
  | some u =>
    have := hall r2 hr2d (by simpa using hr2id) u hu
    simp [Int.not_le.mpr this]

/-- **C3, amended.**  Whenever `_observation_valid` passes the
deletion/retirement check and returns a mask, that mask is aligned exactly
to the target index, and at each target timestamp `t` it is `true` iff
some record matching the observation id has `effective_from ≤ t` and
(`effective_until` absent or `t ≤ effective_until` — the upper bound is
*inclusive*), intersected with `t` being before `observation_deleted_at`
for every matched record carrying that field: the logical OR over all
matched records' windows. -/
theorem observation_valid_mask_semantics (index : List Time) (oid : ObsId)
    (records : List AggObs) (mask : List Bool)
    (h : _observation_valid index oid records = .ok mask) :
    mask.length = index.length ∧
    ∀ i, i < index.length →
      (mask.getD i false = true ↔
        ((∃ r ∈ records, r.observation_id = oid ∧
            r.effective_from ≤ index.getD i 0 ∧
            (r.effective_until = none ∨
              ∃ u, r.effective_until = some u ∧ index.getD i 0 ≤ u)) ∧
          (∀ r ∈ records, r.observation_id = oid →
            ∀ d, r.observation_deleted_at = some d → index.getD i 0 < d))) := by
  unfold _observation_valid at h
  split at h
  · exact absurd h (by simp)
  · rw [Except.ok.injEq] at h
    subst h
    refine ⟨List.length_map _ _, fun i hi => ?_⟩
    rw [getD_map_lt index _ i hi false 0]
    exact validAt_iff oid records (index.getD i 0)

/-- **C3, amended, witness.**  On the `test__observation_valid_many`
fixture the mask of `"c"` is `true` at minute 240 (2019-10-04T04:00Z),
and indeed the matching record with `effective_until` = 240 satisfies the
inclusive-bound formula there. -/
theorem observation_valid_mask_semantics_witness :
    _observation_valid hourlyTimes "c" c1records =
      .ok [true, true, true, true, true, false, false, true, true, true] ∧
    ([true, true, true, true, true, false, false, true, true, true].getD 4 false = true ↔
      ((∃ r ∈ c1records, r.observation_id = "c" ∧
          r.effective_from ≤ hourlyTimes.getD 4 0 ∧
          (r.effective_until = none ∨
            ∃ u, r.effective_until = some u ∧ hourlyTimes.getD 4 0 ≤ u)) ∧
        (∀ r ∈ c1records, r.observation_id = "c" →
          ∀ d, r.observation_deleted_at = some d → hourlyTimes.getD 4 0 < d))) :=
  ⟨by decide,
   (observation_valid_mask_semantics hourlyTimes "c" c1records
      [true, true, true, true, true, false, false, true, true, true] (by decide)).2
      4 (by decide)⟩

/-- **C4.**  For every input holding a lifecycle record with
`observation_deleted_at` set for an observation that no record (for the
same id) retires at/before the deletion timestamp, `_observation_valid`
raises `ValueError`, and `compute_aggregate` (once past its `KeyError`
checks and with a well-formed grid) raises `ValueError` rather than
returning an aggregate. -/
theorem deleted_not_retired_raises (index : List Time) (oid : ObsId)
    (records : List AggObs) (data : List (ObsId × ObsFrame)) (m : Nat)
    (label : String) (tz : Int) (fn : String)
    (h : ∃ r ∈ records, r.observation_id = oid ∧
      ∃ d, r.observation_deleted_at = some d ∧
        ∀ r2 ∈ records, r2.observation_id = oid →
          ∀ u, r2.effective_until = some u → d < u) :
    _observation_valid index oid records = .error .valueError ∧
    (data.isEmpty = false → expectedMissing data records = false →
      badColumns data = false →
      ∀ idx, _make_aggregate_index data m label tz = .ok idx →
        compute_aggregate data m label tz fn records = .error .valueError) := by
  obtain ⟨r, hr, hid, hrest⟩ := h
  constructor
  · unfold _observation_valid
    rw [if_pos (deletedRaise_of_not_retired _ oid records ⟨r, hr, hid, hrest⟩)]
  · intro hd hexp hbad idx hidx
    unfold compute_aggregate
    rw [hd, hexp, hbad, hidx]
    simp only [Bool.false_eq_true, if_false]
    rw [if_pos ?_]
    rw [List.any_eq_true]
    refine ⟨r, hr, ?_⟩
    rw [hid]
    exact deletedRaise_of_not_retired _ oid records ⟨r, hr, hid, hrest⟩

/-- **C4, witness.**  A record deleted at minute 100 with no
`effective_until` (so never retired): `_observation_valid` and
`compute_aggregate` both raise `ValueError`. -/
theorem deleted_not_retired_raises_witness :
    _observation_valid [0] "a" [c4rec] = .error .valueError ∧
    compute_aggregate [("a", awareFrame1)] 60 "ending" 0 "sum" [c4rec] =
      .error .valueError := by
  have hh : ∃ r ∈ [c4rec], r.observation_id = "a" ∧
      ∃ d, r.observation_deleted_at = some d ∧
        ∀ r2 ∈ [c4rec], r2.observation_id = "a" →
          ∀ u, r2.effective_until = some u → d < u := by
    refine ⟨c4rec, List.mem_singleton_self _, rfl, 100, rfl, ?_⟩
    intro r2 hr2 _ u hu
    rw [List.mem_singleton] at hr2
    subst hr2
    exact absurd hu (by simp [c4rec])
  exact ⟨(deleted_not_retired_raises [0] "a" [c4rec]
      [("a", awareFrame1)] 60 "ending" 0 "sum" hh).1,
    (deleted_not_retired_raises [0] "a" [c4rec]
      [("a", awareFrame1)] 60 "ending" 0 "sum" hh).2
      (by decide) (by decide) (by decide) [0] (by decide)⟩

/-- **C5, amended.**  `_observation_valid` raises `ValueError` whenever
some record for the observation *with `observation_deleted_at` set* has
`effective_until` absent or at/after the first target timestamp — even
when the observation was properly retired before deletion.  (Records
without `observation_deleted_at` do not participate in this check and may
still make timestamps valid — see the counterexample.) -/
theorem observation_valid_deleted_in_range (index : List Time) (oid : ObsId)
    (records : List AggObs)
    (h : ∃ r ∈ records, r.observation_id = oid ∧
      r.observation_deleted_at.isSome = true ∧
      (r.effective_until = none ∨
        ∃ u, r.effective_until = some u ∧ index.head?.getD 0 ≤ u)) :
    _observation_valid index oid records = .error .valueError := by
  unfold _observation_valid
  rw [if_pos (deletedRaise_of_in_range _ oid records h)]

/-- **C5, amended, witness.**  The `test_compute_aggregate_deleted_not_removed_yet`
record — deleted at minute 7200 (2019-10-09T00:00Z) and properly retired
at minute 420 (2019-10-04T07:00Z), inside the target index — still raises
`ValueError`. -/
theorem observation_valid_deleted_in_range_witness :
    _observation_valid hourlyTimes "y"
      [{ observation_id := "y", effective_from := -3660
       , effective_until := some 420, observation_deleted_at := some 7200 }] =
      .error .valueError :=
  observation_valid_deleted_in_range hourlyTimes "y" _
    ⟨_, List.mem_singleton_self _, rfl, rfl, Or.inr ⟨420, rfl, by decide⟩⟩

/-- **C2, amended.**  For every successful `compute_aggregate` call and
output position, the value is missing exactly when some validity-eligible
observation has no resampled value in the bucket at that timestamp, or no
validity-eligible observation has one: a single eligible observation with
no raw sample in a bucket makes the output missing there even when other
eligible observations have data. -/
theorem compute_aggregate_value_missing_iff (data : List (ObsId × ObsFrame)) (m : Nat)
    (label : String) (tz : Int) (fn : String) (records : List AggObs)
    (r : AggResult) (h : compute_aggregate data m label tz fn records = .ok r)
    (i : Nat) (hi : i < r.index.length) :
    r.value.getD i none = none ↔
      ((∃ p ∈ data, validAt p.1 records (r.index.getD i 0) = true ∧
          bucketValue label m p.2 (r.index.getD i 0) = none) ∨
       (∀ p ∈ data, validAt p.1 records (r.index.getD i 0) = true →
          bucketValue label m p.2 (r.index.getD i 0) = none)) := by
  obtain ⟨_, hval, _⟩ := compute_ok_inv data m label tz fn records r h
  rw [hval, getD_map_lt r.index _ i hi none 0]
  exact aggValueAt_none_iff data records label m fn (r.index.getD i 0)

/-- **C2, amended, witness.**  On the no-overlap fixture at position 2
(minute 120), the value is missing and the equivalence holds: observation
`"x"` is eligible with no bucket sample. -/
theorem compute_aggregate_value_missing_iff_witness :
    compute_aggregate c2data 30 "ending" 0 "median" c2records = .ok c2result ∧
    (c2result.value.getD 2 none = none ↔
      ((∃ p ∈ c2data, validAt p.1 c2records (c2result.index.getD 2 0) = true ∧
          bucketValue "ending" 30 p.2 (c2result.index.getD 2 0) = none) ∨
       (∀ p ∈ c2data, validAt p.1 c2records (c2result.index.getD 2 0) = true →
          bucketValue "ending" 30 p.2 (c2result.index.getD 2 0) = none))) :=
  ⟨by decide,
   compute_aggregate_value_missing_iff c2data 30 "ending" 0 "median" c2records
     c2result (by decide) 2 (by decide)⟩

/-- **C9.**  For every successful `compute_aggregate` call and output
position, the quality flag equals the bitwise OR of the resampled flags of
exactly the observations that contributed a value there (the
validity-eligible, data-present ones — the flags of ineligible
observations are excluded by construction of `contributorsAt`), it is a
bitwise superset of every single contributor's flag, and it is 0 when no
observation contributed. -/
theorem compute_aggregate_quality_flag (data : List (ObsId × ObsFrame)) (m : Nat)
    (label : String) (tz : Int) (fn : String) (records : List AggObs)
    (r : AggResult) (h : compute_aggregate data m label tz fn records = .ok r)
    (i : Nat) (hi : i < r.index.length) :
    r.quality_flag.getD i 0 =
      listOr ((contributorsAt data records label m (r.index.getD i 0)).map
        (fun p => bucketQF label m p.2 (r.index.getD i 0))) ∧
    (∀ p ∈ contributorsAt data records label m (r.index.getD i 0),
      r.quality_flag.getD i 0 ||| bucketQF label m p.2 (r.index.getD i 0) =
        r.quality_flag.getD i 0) ∧
    (contributorsAt data records label m (r.index.getD i 0) = [] →
      r.quality_flag.getD i 0 = 0) := by
  obtain ⟨_, _, hqf⟩ := compute_ok_inv data m label tz fn records r h
  have heq : r.quality_flag.getD i 0 =
      listOr ((contributorsAt data records label m (r.index.getD i 0)).map
        (fun p => bucketQF label m p.2 (r.index.getD i 0))) := by
    rw [hqf, getD_map_lt r.index _ i hi 0 0]
    rfl
  refine ⟨heq, fun p hp => ?_, fun hempty => ?_⟩
  · rw [heq]
    exact listOr_absorb _ _ (List.mem_map.mpr ⟨p, hp, rfl⟩)
  · rw [heq, hempty]
    rfl

/-- **C9, witness.**  On the no-overlap fixture at position 3 (minute
150), both observations contribute (flags 338 and 880) and the output flag
882 is their bitwise OR and a superset of each. -/
theorem compute_aggregate_quality_flag_witness :
    compute_aggregate c2data 30 "ending" 0 "median" c2records = .ok c2result ∧
    (c2result.quality_flag.getD 3 0 =
      listOr ((contributorsAt c2data c2records "ending" 30 (c2result.index.getD 3 0)).map
        (fun p => bucketQF "ending" 30 p.2 (c2result.index.getD 3 0))) ∧
    (∀ p ∈ contributorsAt c2data c2records "ending" 30 (c2result.index.getD 3 0),
      c2result.quality_flag.getD 3 0 ||| bucketQF "ending" 30 p.2 (c2result.index.getD 3 0) =
        c2result.quality_flag.getD 3 0) ∧
    (contributorsAt c2data c2records "ending" 30 (c2result.index.getD 3 0) = [] →
      c2result.quality_flag.getD 3 0 = 0)) :=
  ⟨by decide,
   compute_aggregate_quality_flag c2data 30 "ending" 0 "median" c2records
     c2result (by decide) 3 (by decide)⟩

end SFA
